import Mathlib

/-!
Shallow embedding of `har-tools/http-message` (`src/HttpMessage.ts`).

The repository converts in-memory HTTP request/response objects into a
textual HTTP/1.0 message (start line, header block, body) with byte-size
accounting.  JavaScript strings, records and Node streams are embedded as
follows:

* a JS string is a Lean `String`;
* a JS plain object used as an ordered string map (`Record<string, string>`,
  `OutgoingHttpHeaders`, `IncomingHttpHeaders`) is an association list in
  enumeration (insertion) order — JS objects with string keys enumerate in
  insertion order and keys are unique;
* `undefined` / `null` become `Option.none`;
* a Node `Buffer` (binary chunk) is a `ByteArray`;
* a Node stream is its ordered list of emitted events plus, for readables,
  the `readable` state flag sampled when extraction begins;
* a promise that settles is `AsyncResult.resolved`/`AsyncResult.rejected`;
  a promise that never settles is `AsyncResult.pending`.
-/

/-- `RawHeaders = Record<string, string>` (HttpMessage.ts line 12), embedded as
an ordered association list with unique keys. -/
abbrev RawHeaders := List (String × String)

/-- ASCII lowercasing of a header or encoding name, written structurally so it
kernel-reduces. -/
def lowerAscii (s : String) : String := ⟨s.data.map Char.toLower⟩

/-- HTTP whitespace (space, tab, CR, LF) — what the Fetch `Headers` container
strips from header values on append. -/
def isHttpWhitespace (c : Char) : Bool :=
  c = ' ' || c = '\t' || c = '\r' || c = '\n'

/-- Strip leading and trailing HTTP whitespace from a header value, as the
Fetch `Headers` container normalizes values. -/
def trimHttp (s : String) : String :=
  ⟨((s.data.dropWhile isHttpWhitespace).reverse.dropWhile isHttpWhitespace).reverse⟩

/-- Model of `new Headers(rawHeaders).get(name)` (used at HttpMessage.ts
lines 126-131): case-insensitive name match, values trimmed on append, all
values of matching names combined with ", " in insertion order; `none` when
no entry matches (`get` returns `null`). -/
def headersGet (rawHeaders : RawHeaders) (name : String) : Option String :=
  let hits := rawHeaders.filter (fun p => lowerAscii p.1 = lowerAscii name)
  if hits.isEmpty then none
  else some (String.intercalate ", " (hits.map (fun p => trimHttp p.2)))

/-- The byte encodings Node's `Buffer` supports (`BufferEncoding`). -/
inductive BufEnc where
  | utf8
  | utf16le
  | latin1
  | ascii
  | base64
  | base64url
  | hex
deriving DecidableEq, Repr

/-- Model of Node's `normalizeEncoding`, as applied by
`Buffer.from(string, encoding)`: case-insensitive recognition of the
supported `BufferEncoding` names; `none` means the name is unsupported and
`Buffer.from` throws `ERR_UNKNOWN_ENCODING`. -/
def normalizeEncoding (e : String) : Option BufEnc :=
  match lowerAscii e with
  | "utf8" | "utf-8" => some BufEnc.utf8
  | "utf16le" | "utf-16le" | "ucs2" | "ucs-2" => some BufEnc.utf16le
  | "latin1" | "binary" => some BufEnc.latin1
  | "ascii" => some BufEnc.ascii
  | "base64" => some BufEnc.base64
  | "base64url" => some BufEnc.base64url
  | "hex" => some BufEnc.hex
  | _ => none

/-- Number of UTF-16 code units of a character (JS strings are UTF-16). -/
def utf16Size (c : Char) : Nat := if c.val < 65536 then 1 else 2

/-- UTF-16 length of a string — JS `string.length`. -/
def utf16Length (s : String) : Nat :=
  s.data.foldl (fun n c => n + utf16Size c) 0

/-- Characters Node's base64 decoder consumes (it accepts both the standard
and the url-safe alphabet and ignores everything else). -/
def isBase64Char (c : Char) : Bool :=
  c.isAlphanum || c = '+' || c = '/' || c = '-' || c = '_'

/-- Decoded byte count of a base64 string: `floor(3 * validChars / 4)`. -/
def base64DecodedLength (s : String) : Nat :=
  ((s.data.filter isBase64Char).length * 3) / 4

/-- Hexadecimal digit. -/
def isHexDigitChar (c : Char) : Bool :=
  c.isDigit || ('a' ≤ c && c ≤ 'f') || ('A' ≤ c && c ≤ 'F')

/-- Number of leading valid hex-digit pairs — Node's hex decoder stops at the
first invalid pair. -/
def hexPairs : List Char → Nat
  | c1 :: c2 :: rest =>
    if isHexDigitChar c1 && isHexDigitChar c2 then 1 + hexPairs rest else 0
  | _ => 0

/-- Decoded byte count of a hex string. -/
def hexDecodedLength (s : String) : Nat := hexPairs s.data

/-- Model of `Buffer.from(string, enc).byteLength` per supported encoding:
one byte per UTF-16 code unit for latin1/ascii, two for utf16le, UTF-8 byte
count for utf8, decoded sizes for base64/base64url/hex. -/
def byteLengthIn : BufEnc → String → Nat
  | BufEnc.utf8, s => s.utf8ByteSize
  | BufEnc.utf16le, s => 2 * utf16Length s
  | BufEnc.latin1, s => utf16Length s
  | BufEnc.ascii, s => utf16Length s
  | BufEnc.base64, s => base64DecodedLength s
  | BufEnc.base64url, s => base64DecodedLength s
  | BufEnc.hex, s => hexDecodedLength s

/-- `Buffer.from(body, encoding).byteLength` (HttpMessage.ts line 133): with
no encoding Node defaults to utf8; an unsupported encoding name makes
`Buffer.from` throw `TypeError [ERR_UNKNOWN_ENCODING]: Unknown encoding`. -/
def bufferByteLength (encoding : Option String) (s : String) : Except String Nat :=
  match encoding with
  | none => Except.ok s.utf8ByteSize
  | some e =>
    match normalizeEncoding e with
    | some be => Except.ok (byteLengthIn be s)
    | none => Except.error ("Unknown encoding: " ++ e)

/-- `toHeaderLines` (HttpMessage.ts lines 186-194): one
`name: value` line per raw-header entry, in order. -/
def toHeaderLines (rawHeaders : RawHeaders) : List String :=
  rawHeaders.map (fun p => p.1 ++ ": " ++ p.2)

/-- The message value object: constructor parameters plus the derived fields
assigned in the constructor body (HttpMessage.ts lines 82-150). -/
structure HttpMessage where
  startLine : String
  rawHeaders : RawHeaders
  body : Option String
  encoding : Option String
  mimeType : String
  bodySize : Nat
  headers : String
  headersSize : Nat
deriving DecidableEq, Repr

/-- `this.encoding = (fetchHeaders.get('Content-Encoding') || undefined)`
(HttpMessage.ts lines 128-129): absent header or empty string (falsy) both
give `undefined`. -/
def resolveEncoding (rawHeaders : RawHeaders) : Option String :=
  (headersGet rawHeaders "Content-Encoding").bind
    (fun v => if v = "" then none else some v)

/-- `this.bodySize = body == null ? 0 : Buffer.from(body, this.encoding).byteLength`
(HttpMessage.ts lines 132-133). -/
def computeBodySize (encoding : Option String) : Option String → Except String Nat
  | none => Except.ok 0
  | some b => bufferByteLength encoding b

/-- The header-block computation of the constructor
(HttpMessage.ts lines 135-145): empty when there are no header lines,
otherwise the lines joined by CRLF with one trailing CRLF, plus one extra
CRLF exactly when `bodySize > 0`. -/
def computeHeaderBlock (rawHeaders : RawHeaders) (bodySize : Nat) : String :=
  let headerLines := toHeaderLines rawHeaders
  if headerLines.length = 0 then ""
  else
    let joined := String.intercalate "\r\n" headerLines ++ "\r\n"
    if bodySize > 0 then joined ++ "\r\n" else joined

/-- The `HttpMessage` constructor (HttpMessage.ts lines 113-150).  Fallible
because computing `bodySize` via `Buffer.from(body, encoding)` throws when
the `Content-Encoding` header names an unsupported byte encoding.
`headersSize` is `Buffer.from(startLine + CRLF + headers).byteLength`
(lines 147-149), with `Buffer.from`'s default utf8 encoding. -/
def HttpMessage.construct (startLine : String) (rawHeaders : RawHeaders)
    (body : Option String) : Except String HttpMessage :=
  let encoding := resolveEncoding rawHeaders
  let mimeType := (headersGet rawHeaders "Content-Type").getD ""
  (computeBodySize encoding body).map (fun bodySize =>
    let headers := computeHeaderBlock rawHeaders bodySize
    { startLine := startLine
      rawHeaders := rawHeaders
      body := body
      encoding := encoding
      mimeType := mimeType
      bodySize := bodySize
      headers := headers
      headersSize := (startLine ++ "\r\n" ++ headers).utf8ByteSize })

/-- `get totalSize()` (HttpMessage.ts lines 155-157). -/
def HttpMessage.totalSize (m : HttpMessage) : Nat := m.headersSize + m.bodySize

/-- `toString()` (HttpMessage.ts lines 169-183): start line, CRLF, the header
block, then the body when present (`body != null`, so an empty string
counts), else one bare CRLF when the header-block string is non-empty. -/
def HttpMessage.toString (m : HttpMessage) : String :=
  let message := m.startLine ++ "\r\n" ++ m.headers
  match m.body with
  | some b => message ++ b
  | none => if m.headers.length > 0 then message ++ "\r\n" else message

/-- A value of `OutgoingHttpHeaders`: `number | string | string[] | undefined`. -/
inductive OutgoingHeaderValue where
  | str (s : String)
  | num (n : Int)
  | list (l : List String)
  | undef
deriving DecidableEq, Repr

/-- A value of `IncomingHttpHeaders`: `string | string[] | undefined`. -/
inductive IncomingHeaderValue where
  | str (s : String)
  | list (l : List String)
  | undef
deriving DecidableEq, Repr

/-- The loop of `headersFromOutgoingHttpHeaders` (HttpMessage.ts
lines 196-213), with `result` as the accumulator: `undefined` values are
skipped (`continue`), arrays become their elements stringified and joined
with ", ", scalars become `value.toString()` (identity on strings, decimal
rendering on numbers). -/
def headersFromOutgoingLoop :
    List (String × OutgoingHeaderValue) → RawHeaders → RawHeaders
  | [], result => result
  | (_, OutgoingHeaderValue.undef) :: rest, result =>
    headersFromOutgoingLoop rest result
  | (name, OutgoingHeaderValue.str s) :: rest, result =>
    headersFromOutgoingLoop rest (result ++ [(name, s)])
  | (name, OutgoingHeaderValue.num n) :: rest, result =>
    headersFromOutgoingLoop rest (result ++ [(name, ToString.toString n)])
  | (name, OutgoingHeaderValue.list l) :: rest, result =>
    headersFromOutgoingLoop rest (result ++ [(name, String.intercalate ", " l)])

/-- `headersFromOutgoingHttpHeaders` (HttpMessage.ts lines 196-213). -/
def headersFromOutgoingHttpHeaders
    (headers : List (String × OutgoingHeaderValue)) : RawHeaders :=
  headersFromOutgoingLoop headers []

/-- The loop of `headersFromIncomingHttpHeaders` (HttpMessage.ts
lines 215-230): `undefined` values are skipped, arrays are joined with
", ", plain strings pass through unchanged. -/
def headersFromIncomingLoop :
    List (String × IncomingHeaderValue) → RawHeaders → RawHeaders
  | [], result => result
  | (_, IncomingHeaderValue.undef) :: rest, result =>
    headersFromIncomingLoop rest result
  | (name, IncomingHeaderValue.str s) :: rest, result =>
    headersFromIncomingLoop rest (result ++ [(name, s)])
  | (name, IncomingHeaderValue.list l) :: rest, result =>
    headersFromIncomingLoop rest (result ++ [(name, String.intercalate ", " l)])

/-- `headersFromIncomingHttpHeaders` (HttpMessage.ts lines 215-230). -/
def headersFromIncomingHttpHeaders
    (headers : List (String × IncomingHeaderValue)) : RawHeaders :=
  headersFromIncomingLoop headers []

/-- Outcome of an awaited promise: settled (resolved/rejected) or forever
pending. -/
inductive AsyncResult (α : Type) where
  | pending
  | rejected (message : String)
  | resolved (value : α)
deriving DecidableEq, Repr

/-- `Buffer.concat(chunks)`. -/
def concatChunks (chunks : List ByteArray) : ByteArray :=
  chunks.foldl (fun acc c => acc ++ c) ByteArray.empty

/-- `Buffer.concat(chunks).toString('utf8')`.  Node substitutes U+FFFD for
invalid sequences; the model returns the decoding when the bytes are valid
UTF-8 (the only case the claims exercise) and "" otherwise. -/
def utf8Decode (b : ByteArray) : String := (String.fromUTF8? b).getD ""

/-- Events a readable stream emits, in order. -/
inductive ReadableEvent where
  | data (chunk : ByteArray)
  | error (message : String)
  | ended

/-- A readable stream as sampled when extraction begins: its `readable`
state flag and the events it will emit. -/
structure ReadableStream where
  readable : Bool
  events : List ReadableEvent

/-- The message of the `invariant` guard in `extractReadableBody`
(HttpMessage.ts lines 251-254) — the `StreamAlreadyConsumed` error. -/
def streamAlreadyConsumedMessage : String :=
  "Failed to read the body of IncomingMessage: message already read"

/-- The listener behaviour of `extractReadableBody` (HttpMessage.ts
lines 256-262): `data` pushes the chunk, `error` rejects the promise, `end`
resolves with `undefined` when no chunk arrived, else with the UTF-8
decoding of the concatenated chunks. -/
def processReadableEvents :
    List ReadableEvent → List ByteArray → AsyncResult (Option String)
  | [], _ => AsyncResult.pending
  | ReadableEvent.data c :: rest, chunks =>
    processReadableEvents rest (chunks ++ [c])
  | ReadableEvent.error e :: _, _ => AsyncResult.rejected e
  | ReadableEvent.ended :: _, chunks =>
    AsyncResult.resolved
      (if chunks.length = 0 then none else some (utf8Decode (concatChunks chunks)))

/-- `extractReadableBody` (HttpMessage.ts lines 245-265): the `invariant`
guard rejects with the `StreamAlreadyConsumed` message when the stream is
not readable, before any listener is attached; otherwise the listeners
process the stream's events starting from an empty chunk list. -/
def extractReadableBody (stream : ReadableStream) : AsyncResult (Option String) :=
  if stream.readable then processReadableEvents stream.events []
  else AsyncResult.rejected streamAlreadyConsumedMessage

/-- Events a writable stream receives, in order. -/
inductive WritableEvent where
  | write (chunk : ByteArray)
  | error (message : String)
  | finished

/-- The behaviour of `extractWritableBody`'s listeners (HttpMessage.ts
lines 267-286) as written: the overridden `_write` only logs the chunk and
encoding to the console and calls `next()` — it never pushes into `chunks`
— so written chunks are dropped; `finish` resolves from the (necessarily
empty) chunk list. -/
def processWritableEvents :
    List WritableEvent → List ByteArray → AsyncResult (Option String)
  | [], _ => AsyncResult.pending
  | WritableEvent.write _ :: rest, chunks => processWritableEvents rest chunks
  | WritableEvent.error e :: _, _ => AsyncResult.rejected e
  | WritableEvent.finished :: _, chunks =>
    AsyncResult.resolved
      (if chunks.length = 0 then none else some (utf8Decode (concatChunks chunks)))

/-- `extractWritableBody` (HttpMessage.ts lines 267-286). -/
def extractWritableBody (events : List WritableEvent) : AsyncResult (Option String) :=
  processWritableEvents events []

/-- A Fetch API body source: whether `instance.body` is non-null, and the
text `instance.text()` resolves with. -/
structure FetchBodySource where
  hasBody : Bool
  text : String

/-- `extractFetchBody` (HttpMessage.ts lines 232-243): `undefined` when
`instance.body` is null, else the result of `instance.text()`. -/
def extractFetchBody (source : FetchBodySource) : Option String :=
  if source.hasBody then some source.text else none

/-- Node's `http.STATUS_CODES` reason-phrase table (external collaborator,
imported at HttpMessage.ts line 2). -/
def STATUS_CODES : Nat → Option String
  | 100 => some "Continue"
  | 101 => some "Switching Protocols"
  | 102 => some "Processing"
  | 103 => some "Early Hints"
  | 200 => some "OK"
  | 201 => some "Created"
  | 202 => some "Accepted"
  | 203 => some "Non-Authoritative Information"
  | 204 => some "No Content"
  | 205 => some "Reset Content"
  | 206 => some "Partial Content"
  | 207 => some "Multi-Status"
  | 208 => some "Already Reported"
  | 226 => some "IM Used"
  | 300 => some "Multiple Choices"
  | 301 => some "Moved Permanently"
  | 302 => some "Found"
  | 303 => some "See Other"
  | 304 => some "Not Modified"
  | 305 => some "Use Proxy"
  | 307 => some "Temporary Redirect"
  | 308 => some "Permanent Redirect"
  | 400 => some "Bad Request"
  | 401 => some "Unauthorized"
  | 402 => some "Payment Required"
  | 403 => some "Forbidden"
  | 404 => some "Not Found"
  | 405 => some "Method Not Allowed"
  | 406 => some "Not Acceptable"
  | 407 => some "Proxy Authentication Required"
  | 408 => some "Request Timeout"
  | 409 => some "Conflict"
  | 410 => some "Gone"
  | 411 => some "Length Required"
  | 412 => some "Precondition Failed"
  | 413 => some "Payload Too Large"
  | 414 => some "URI Too Long"
  | 415 => some "Unsupported Media Type"
  | 416 => some "Range Not Satisfiable"
  | 417 => some "Expectation Failed"
  | 418 => some "I\x27m a Teapot"
  | 421 => some "Misdirected Request"
  | 422 => some "Unprocessable Entity"
  | 423 => some "Locked"
  | 424 => some "Failed Dependency"
  | 425 => some "Too Early"
  | 426 => some "Upgrade Required"
  | 428 => some "Precondition Required"
  | 429 => some "Too Many Requests"
  | 431 => some "Request Header Fields Too Large"
  | 451 => some "Unavailable For Legal Reasons"
  | 500 => some "Internal Server Error"
  | 501 => some "Not Implemented"
  | 502 => some "Bad Gateway"
  | 503 => some "Service Unavailable"
  | 504 => some "Gateway Timeout"
  | 505 => some "HTTP Version Not Supported"
  | 506 => some "Variant Also Negotiates"
  | 507 => some "Insufficient Storage"
  | 508 => some "Loop Detected"
  | 509 => some "Bandwidth Limit Exceeded"
  | 510 => some "Not Extended"
  | 511 => some "Network Authentication Required"
  | _ => none

/-- Rendering of a `STATUS_CODES` lookup inside a template literal: an
undefined entry interpolates as the text "undefined". -/
def statusCodeText (status : Nat) : String :=
  match STATUS_CODES status with
  | some t => t
  | none => "undefined"

/-- JS `a || b` for an optional string: absence and the empty string are
both falsy. -/
def orElseStr (a : Option String) (b : String) : String :=
  match a with
  | some s => if s = "" then b else s
  | none => b

/-- `HttpMessage.httpVersion` (HttpMessage.ts line 15). -/
def httpVersion : String := "HTTP/1.0"

/-- A Fetch API `Request` as the factory reads it: `method`, `url`,
`Object.fromEntries(request.headers.entries())`, and its body source. -/
structure FetchRequest where
  method : String
  url : String
  headers : RawHeaders
  bodySource : FetchBodySource

/-- An `http.ClientRequest` as the factory reads it: `method`,
`request.getHeaders()`, and the chunks written to it as a writable. -/
structure ClientRequest where
  method : String
  headers : List (String × OutgoingHeaderValue)
  events : List WritableEvent

/-- The runtime shapes `fromRequest` dispatches on (HttpMessage.ts
lines 17-44): a Fetch `Request`, an `http.ClientRequest`, or anything
else.  For the last, `typeName` is the display name the code computes —
`request.constructor?.name` when non-null, else `typeof request`. -/
inductive RequestSource where
  | fetch (r : FetchRequest)
  | client (r : ClientRequest)
  | other (typeName : String)

/-- The message `invariant` produces at HttpMessage.ts lines 36-43, with
the `%s` placeholder substituted. -/
def unsupportedRequestMessage (typeName : String) : String :=
  "Failed to create HTTP message from request: expected a Fetch API Request instance or http.ClientRequest but got "
    ++ typeName

/-- Lift a constructor result into the factory's promise. -/
def constructAsync (startLine : String) (rawHeaders : RawHeaders)
    (body : Option String) : AsyncResult HttpMessage :=
  match HttpMessage.construct startLine rawHeaders body with
  | Except.ok m => AsyncResult.resolved m
  | Except.error e => AsyncResult.rejected e

/-- `HttpMessage.fromRequest` (HttpMessage.ts lines 17-44). -/
def HttpMessage.fromRequest : RequestSource → AsyncResult HttpMessage
  | RequestSource.fetch r =>
    constructAsync (r.method ++ " " ++ r.url ++ " " ++ httpVersion)
      r.headers (extractFetchBody r.bodySource)
  | RequestSource.client r =>
    match extractWritableBody r.events with
    | AsyncResult.pending => AsyncResult.pending
    | AsyncResult.rejected e => AsyncResult.rejected e
    | AsyncResult.resolved body =>
      constructAsync (r.method ++ " ??? " ++ httpVersion)
        (headersFromOutgoingHttpHeaders r.headers) body
  | RequestSource.other typeName =>
    AsyncResult.rejected (unsupportedRequestMessage typeName)

/-- A Fetch API `Response` as the factory reads it. -/
structure FetchResponse where
  status : Nat
  statusText : String
  headers : RawHeaders
  bodySource : FetchBodySource

/-- An `http.IncomingMessage` as the factory reads it: `statusCode`,
`statusMessage` and `httpVersion` may be unset, `headers` is an
`IncomingHttpHeaders` mapping, and the body arrives on its readable
stream. -/
structure IncomingMessage where
  statusCode : Option Nat
  statusMessage : Option String
  httpVersion : Option String
  headers : List (String × IncomingHeaderValue)
  stream : ReadableStream

/-- The runtime shapes `fromResponse` dispatches on (HttpMessage.ts
lines 46-80). -/
inductive ResponseSource where
  | fetch (r : FetchResponse)
  | incoming (r : IncomingMessage)
  | other (typeName : String)

/-- The message `invariant` produces at HttpMessage.ts lines 72-79, with
the `%s` placeholder substituted. -/
def unsupportedResponseMessage (typeName : String) : String :=
  "Failed to create HTTP message from response: expected a Fetch API Response instance or http.IncomingMessage but got "
    ++ typeName

/-- `HttpMessage.fromResponse` (HttpMessage.ts lines 46-80).  For a Fetch
`Response`, `statusText || STATUS_CODES[status]`; for an
`http.IncomingMessage`, `statusCode || 200` (0 is falsy),
`statusMessage || STATUS_CODES[status]`, and the message's own
`httpVersion` string used verbatim when non-empty. -/
def HttpMessage.fromResponse : ResponseSource → AsyncResult HttpMessage
  | ResponseSource.fetch r =>
    constructAsync
      (httpVersion ++ " " ++ ToString.toString r.status ++ " "
        ++ orElseStr (some r.statusText) (statusCodeText r.status))
      r.headers (extractFetchBody r.bodySource)
  | ResponseSource.incoming r =>
    let status := match r.statusCode with
      | none => 200
      | some 0 => 200
      | some n => n
    let statusText := orElseStr r.statusMessage (statusCodeText status)
    let version := orElseStr r.httpVersion httpVersion
    match extractReadableBody r.stream with
    | AsyncResult.pending => AsyncResult.pending
    | AsyncResult.rejected e => AsyncResult.rejected e
    | AsyncResult.resolved body =>
      constructAsync
        (version ++ " " ++ ToString.toString status ++ " " ++ statusText)
        (headersFromIncomingHttpHeaders r.headers) body
  | ResponseSource.other typeName =>
    AsyncResult.rejected (unsupportedResponseMessage typeName)

/-! Helper lemmas shared by the claim theorems. -/

/-- Inversion of a successful construction: the bodySize computation
succeeded and every field of the message is the corresponding derived
value. -/
theorem construct_ok_inv {sl : String} {hs : RawHeaders} {b : Option String}
    {m : HttpMessage} (h : HttpMessage.construct sl hs b = Except.ok m) :
    computeBodySize (resolveEncoding hs) b = Except.ok m.bodySize
    ∧ m = { startLine := sl
            rawHeaders := hs
            body := b
            encoding := resolveEncoding hs
            mimeType := (headersGet hs "Content-Type").getD ""
            bodySize := m.bodySize
            headers := computeHeaderBlock hs m.bodySize
            headersSize := (sl ++ "\r\n" ++ computeHeaderBlock hs m.bodySize).utf8ByteSize } := by
  unfold HttpMessage.construct at h
  simp only [] at h
  cases hc : computeBodySize (resolveEncoding hs) b with
  | error e =>
    rw [hc] at h
    simp [Except.map] at h
  | ok n =>
    rw [hc] at h
    simp only [Except.map, Except.ok.injEq] at h
    subst h
    exact ⟨rfl, rfl⟩

/-- A string has positive length exactly when it is not the empty string. -/
theorem string_length_pos_iff (s : String) : 0 < s.length ↔ s ≠ "" := by
  constructor
  · intro h he
    subst he
    simp at h
  · intro h
    cases s with
    | mk data =>
      cases data with
      | nil => exact absurd rfl h
      | cons c cs => simp [String.length]

/-- Claim C1 counterexample: a message with one header and a present
empty-string body.  The claim says the header block must end with an extra
CRLF because a body is present (an empty-string body counting as present),
but the constructor tests `bodySize > 0`, and an empty-string body has
`bodySize = 0`: the constructed header block is a single header line with
one CRLF, not the claimed line followed by an extra CRLF. -/
theorem c1_counterexample :
    HttpMessage.construct "GET https://example.com/ HTTP/1.0"
        [("Host", "example.com")] (some "")
      = Except.ok
        { startLine := "GET https://example.com/ HTTP/1.0"
          rawHeaders := [("Host", "example.com")]
          body := some ""
          encoding := none
          mimeType := ""
          bodySize := 0
          headers := "Host: example.com\r\n"
          headersSize := 54 }
    ∧ "Host: example.com\r\n"
        ≠ String.intercalate "\r\n" (toHeaderLines [("Host", "example.com")])
            ++ "\r\n" ++ "\r\n" :=
  ⟨rfl, by decide⟩

/-- Claim C1 (amended): for every constructed message, the header block is
empty when there are no headers, and otherwise consists of the header lines
joined by CRLF with one trailing CRLF, with one extra CRLF appended after
the last header line if and only if there is at least one header and the
computed `bodySize` is positive — a present body whose byte length is 0
(in particular an empty-string body) does not get the extra CRLF. -/
theorem c1_extra_crlf (startLine : String) (rawHeaders : RawHeaders)
    (body : Option String) (m : HttpMessage)
    (h : HttpMessage.construct startLine rawHeaders body = Except.ok m) :
    m.headers =
      if rawHeaders.length = 0 then ""
      else
        String.intercalate "\r\n" (toHeaderLines rawHeaders) ++ "\r\n"
          ++ (if 0 < m.bodySize then "\r\n" else "") := by
  obtain ⟨-, hm⟩ := construct_ok_inv h
  rw [hm]
  show computeHeaderBlock rawHeaders m.bodySize = _
  simp only [computeHeaderBlock, toHeaderLines, List.length_map]
  by_cases h1 : rawHeaders.length = 0
  · simp [h1]
  · simp only [h1, if_false]
    by_cases h2 : 0 < m.bodySize
    · simp [h2, String.append_assoc]
    · simp [h2]

/-- Concrete message for the C1 witness: one header and the body "Hello". -/
def c1WitnessMessage : HttpMessage :=
  { startLine := "POST / HTTP/1.0"
    rawHeaders := [("content-type", "text/plain")]
    body := some "Hello"
    encoding := none
    mimeType := "text/plain"
    bodySize := 5
    headers := "content-type: text/plain\r\n\r\n"
    headersSize := 45 }

/-- Witness for the amended C1 at a concrete input with a non-empty body. -/
theorem c1_extra_crlf_witness :
    HttpMessage.construct "POST / HTTP/1.0" [("content-type", "text/plain")]
        (some "Hello")
      = Except.ok c1WitnessMessage
    ∧ c1WitnessMessage.headers =
        (if ([("content-type", "text/plain")] : RawHeaders).length = 0 then ""
         else
           String.intercalate "\r\n" (toHeaderLines [("content-type", "text/plain")])
             ++ "\r\n" ++ (if 0 < c1WitnessMessage.bodySize then "\r\n" else "")) :=
  ⟨rfl, c1_extra_crlf "POST / HTTP/1.0" [("content-type", "text/plain")]
    (some "Hello") c1WitnessMessage rfl⟩

/-- Claim C2: for every constructed message, `headersSize` equals exactly
the UTF-8 byte length of `startLine + CRLF + headerBlock`. -/
theorem c2_headers_size (startLine : String) (rawHeaders : RawHeaders)
    (body : Option String) (m : HttpMessage)
    (h : HttpMessage.construct startLine rawHeaders body = Except.ok m) :
    m.headersSize = (m.startLine ++ "\r\n" ++ m.headers).utf8ByteSize := by
  obtain ⟨-, hm⟩ := construct_ok_inv h
  rw [hm]

/-- Concrete message for the C2 witness: header-less GET message. -/
def c2WitnessMessage : HttpMessage :=
  { startLine := "GET / HTTP/1.0"
    rawHeaders := []
    body := none
    encoding := none
    mimeType := ""
    bodySize := 0
    headers := ""
    headersSize := 16 }

/-- Witness for C2 at a concrete input. -/
theorem c2_headers_size_witness :
    HttpMessage.construct "GET / HTTP/1.0" [] none = Except.ok c2WitnessMessage
    ∧ c2WitnessMessage.headersSize
        = (c2WitnessMessage.startLine ++ "\r\n" ++ c2WitnessMessage.headers).utf8ByteSize :=
  ⟨rfl, c2_headers_size "GET / HTTP/1.0" [] none c2WitnessMessage rfl⟩

/-- Claim C3: serialization emits the start line followed by CRLF, then the
header block verbatim, then: the body text with no trailing terminator when
a body is present (including the empty string); otherwise one more bare
CRLF when the header block is non-empty, and nothing further when the
header block is empty. -/
theorem c3_serialization (m : HttpMessage) :
    (∀ b, m.body = some b →
      m.toString = m.startLine ++ "\r\n" ++ m.headers ++ b)
    ∧ (m.body = none → m.headers ≠ "" →
      m.toString = m.startLine ++ "\r\n" ++ m.headers ++ "\r\n")
    ∧ (m.body = none → m.headers = "" →
      m.toString = m.startLine ++ "\r\n") := by
  refine ⟨?_, ?_, ?_⟩
  · intro b hb
    simp [HttpMessage.toString, hb, String.append_assoc]
  · intro hb hne
    have hlen : 0 < m.headers.length := (string_length_pos_iff m.headers).mpr hne
    simp [HttpMessage.toString, hb, hlen, String.append_assoc]
  · intro hb he
    simp [HttpMessage.toString, hb, he]

/-- Concrete message for the C3 witness. -/
def c3WitnessMessage : HttpMessage :=
  { startLine := "POST / HTTP/1.0"
    rawHeaders := [("content-type", "text/plain")]
    body := some "Hello"
    encoding := none
    mimeType := "text/plain"
    bodySize := 5
    headers := "content-type: text/plain\r\n\r\n"
    headersSize := 45 }

/-- Witness for C3 at a concrete message with a present body. -/
theorem c3_serialization_witness :
    c3WitnessMessage.body = some "Hello"
    ∧ c3WitnessMessage.toString
        = c3WitnessMessage.startLine ++ "\r\n" ++ c3WitnessMessage.headers ++ "Hello" :=
  ⟨rfl, (c3_serialization c3WitnessMessage).1 "Hello" rfl⟩

/-- Claim C4: a message constructed with zero headers has an empty header
block regardless of body presence, and serializes as the start line, its
closing CRLF, then exactly the body text when a body is present and nothing
more when it is absent — so the single CRLF standing directly before the
body is emitted, and no further bare CRLF is appended in the bodiless
case. -/
theorem c4_zero_headers (startLine : String) (body : Option String)
    (m : HttpMessage) (h : HttpMessage.construct startLine [] body = Except.ok m) :
    m.headers = "" ∧ m.toString = startLine ++ "\r\n" ++ body.getD "" := by
  obtain ⟨-, hm⟩ := construct_ok_inv h
  constructor
  · rw [hm]
    rfl
  · rw [hm]
    cases body with
    | none => simp [HttpMessage.toString, computeHeaderBlock, toHeaderLines]
    | some b =>
      simp [HttpMessage.toString, computeHeaderBlock, toHeaderLines, String.append_assoc]

/-- Concrete message for the C4 witness: no headers, body present. -/
def c4WitnessMessage : HttpMessage :=
  { startLine := "GET / HTTP/1.0"
    rawHeaders := []
    body := some "Hello"
    encoding := none
    mimeType := ""
    bodySize := 5
    headers := ""
    headersSize := 16 }

/-- Witness for C4 at a concrete input. -/
theorem c4_zero_headers_witness :
    HttpMessage.construct "GET / HTTP/1.0" [] (some "Hello") = Except.ok c4WitnessMessage
    ∧ c4WitnessMessage.headers = ""
    ∧ c4WitnessMessage.toString = "GET / HTTP/1.0" ++ "\r\n" ++ (some "Hello").getD "" :=
  ⟨rfl, (c4_zero_headers "GET / HTTP/1.0" (some "Hello") c4WitnessMessage rfl).1,
    (c4_zero_headers "GET / HTTP/1.0" (some "Hello") c4WitnessMessage rfl).2⟩

/-- Processing a run of `data` events appends the chunks, in arrival order,
to the accumulated chunk list. -/
theorem processReadable_datas (chunks : List ByteArray) (rest : List ReadableEvent)
    (acc : List ByteArray) :
    processReadableEvents (chunks.map ReadableEvent.data ++ rest) acc
      = processReadableEvents rest (acc ++ chunks) := by
  induction chunks generalizing acc with
  | nil => simp
  | cons c cs ih =>
    simp only [List.map_cons, List.cons_append, processReadableEvents, List.append_eq]
    rw [ih]
    simp [List.append_assoc]

/-- Claim C5: for every readable streaming source, body extraction collects
the chunks in arrival order and, on the end signal, resolves with the UTF-8
decoding of their concatenation; when zero chunks arrived before the end
signal it resolves with `none` (absent), not the empty string. -/
theorem c5_readable_extraction (chunks : List ByteArray) :
    extractReadableBody
        { readable := true
          events := chunks.map ReadableEvent.data ++ [ReadableEvent.ended] }
      = AsyncResult.resolved
          (if chunks.length = 0 then none
           else some (utf8Decode (concatChunks chunks))) := by
  show processReadableEvents (chunks.map ReadableEvent.data ++ [ReadableEvent.ended]) [] = _
  rw [processReadable_datas]
  simp [processReadableEvents]

/-- Claim C6: for every streaming source that is not in a readable state
when extraction begins, extraction fails immediately with the
`StreamAlreadyConsumed` (not-readable) error — whatever events the stream
would emit, so before any chunk is collected. -/
theorem c6_stream_already_consumed (events : List ReadableEvent) :
    extractReadableBody { readable := false, events := events }
      = AsyncResult.rejected streamAlreadyConsumedMessage := rfl

/-- Claim C7: for every input that matches neither recognized shape for its
side, both factories reject with the `UnsupportedSourceType` error whose
text is a fixed prefix followed by the actual runtime shape/type name, and
no message is resolved. -/
theorem c7_unsupported_source_type (typeName : String) :
    HttpMessage.fromRequest (RequestSource.other typeName)
        = AsyncResult.rejected (unsupportedRequestMessage typeName)
    ∧ HttpMessage.fromResponse (ResponseSource.other typeName)
        = AsyncResult.rejected (unsupportedResponseMessage typeName)
    ∧ unsupportedRequestMessage typeName
        = "Failed to create HTTP message from request: expected a Fetch API Request instance or http.ClientRequest but got "
            ++ typeName
    ∧ unsupportedResponseMessage typeName
        = "Failed to create HTTP message from response: expected a Fetch API Response instance or http.IncomingMessage but got "
            ++ typeName :=
  ⟨rfl, rfl, rfl, rfl⟩

/-- The resolved value of one `OutgoingHttpHeaders` entry, as the claim
describes it: `none` for `undefined`, the joined list for an array, the
stringified scalar otherwise. -/
def resolveOutgoingEntry (p : String × OutgoingHeaderValue) : Option (String × String) :=
  match p.2 with
  | OutgoingHeaderValue.undef => none
  | OutgoingHeaderValue.str s => some (p.1, s)
  | OutgoingHeaderValue.num n => some (p.1, ToString.toString n)
  | OutgoingHeaderValue.list l => some (p.1, String.intercalate ", " l)

/-- The resolved value of one `IncomingHttpHeaders` entry. -/
def resolveIncomingEntry (p : String × IncomingHeaderValue) : Option (String × String) :=
  match p.2 with
  | IncomingHeaderValue.undef => none
  | IncomingHeaderValue.str s => some (p.1, s)
  | IncomingHeaderValue.list l => some (p.1, String.intercalate ", " l)

/-- The outgoing-headers loop appends exactly the resolved entries, in
order, to its accumulator. -/
theorem headersFromOutgoingLoop_spec (entries : List (String × OutgoingHeaderValue))
    (result : RawHeaders) :
    headersFromOutgoingLoop entries result
      = result ++ entries.filterMap resolveOutgoingEntry := by
  induction entries generalizing result with
  | nil => simp [headersFromOutgoingLoop]
  | cons e rest ih =>
    obtain ⟨name, v⟩ := e
    cases v <;>
      simp [headersFromOutgoingLoop, ih, resolveOutgoingEntry, List.filterMap_cons,
        List.append_assoc]

/-- The incoming-headers loop appends exactly the resolved entries, in
order, to its accumulator. -/
theorem headersFromIncomingLoop_spec (entries : List (String × IncomingHeaderValue))
    (result : RawHeaders) :
    headersFromIncomingLoop entries result
      = result ++ entries.filterMap resolveIncomingEntry := by
  induction entries generalizing result with
  | nil => simp [headersFromIncomingLoop]
  | cons e rest ih =>
    obtain ⟨name, v⟩ := e
    cases v <;>
      simp [headersFromIncomingLoop, ih, resolveIncomingEntry, List.filterMap_cons,
        List.append_assoc]

/-- Resolving an entry keeps its key unchanged when it is kept at all. -/
theorem resolveOutgoingEntry_keys (entries : List (String × OutgoingHeaderValue)) :
    (entries.filterMap resolveOutgoingEntry).map Prod.fst
      = (entries.filter (fun p => p.2 ≠ OutgoingHeaderValue.undef)).map Prod.fst := by
  induction entries with
  | nil => rfl
  | cons e rest ih =>
    obtain ⟨name, v⟩ := e
    cases v <;> simp [resolveOutgoingEntry, List.filterMap_cons, List.filter_cons, ih]

/-- Resolving an incoming entry keeps its key unchanged when kept. -/
theorem resolveIncomingEntry_keys (entries : List (String × IncomingHeaderValue)) :
    (entries.filterMap resolveIncomingEntry).map Prod.fst
      = (entries.filter (fun p => p.2 ≠ IncomingHeaderValue.undef)).map Prod.fst := by
  induction entries with
  | nil => rfl
  | cons e rest ih =>
    obtain ⟨name, v⟩ := e
    cases v <;> simp [resolveIncomingEntry, List.filterMap_cons, List.filter_cons, ih]

/-- Claim C8: for every plain-object header mapping, normalization resolves
each entry in place — list values joined with ", ", scalar string values
passed through unchanged, entries whose value is undefined skipped entirely
— and the output keys are exactly the keys of the defined entries, in
first-seen order and with their original casing. -/
theorem c8_header_normalization (outHeaders : List (String × OutgoingHeaderValue))
    (inHeaders : List (String × IncomingHeaderValue)) :
    headersFromOutgoingHttpHeaders outHeaders
        = outHeaders.filterMap resolveOutgoingEntry
    ∧ headersFromIncomingHttpHeaders inHeaders
        = inHeaders.filterMap resolveIncomingEntry
    ∧ (headersFromOutgoingHttpHeaders outHeaders).map Prod.fst
        = (outHeaders.filter (fun p => p.2 ≠ OutgoingHeaderValue.undef)).map Prod.fst
    ∧ (headersFromIncomingHttpHeaders inHeaders).map Prod.fst
        = (inHeaders.filter (fun p => p.2 ≠ IncomingHeaderValue.undef)).map Prod.fst := by
  have ho : headersFromOutgoingHttpHeaders outHeaders
      = outHeaders.filterMap resolveOutgoingEntry := by
    rw [headersFromOutgoingHttpHeaders, headersFromOutgoingLoop_spec]
    simp
  have hi : headersFromIncomingHttpHeaders inHeaders
      = inHeaders.filterMap resolveIncomingEntry := by
    rw [headersFromIncomingHttpHeaders, headersFromIncomingLoop_spec]
    simp
  exact ⟨ho, hi, by rw [ho, resolveOutgoingEntry_keys],
    by rw [hi, resolveIncomingEntry_keys]⟩

/-- Claim C9: the code at the failing input.  A writable stream that
receives one written chunk ("Hello") and then finishes resolves with an
absent body: the overridden `_write` never accumulates the chunk, so the
claimed result (the UTF-8 decoding "Hello" of the written chunks) is never
produced. -/
theorem c9_writable_chunks_dropped :
    extractWritableBody
        [WritableEvent.write (String.toUTF8 "Hello"), WritableEvent.finished]
      = AsyncResult.resolved none := rfl

/-- Claim C10: whenever the body is present and the `Content-Encoding`
header resolves to a value that is not a supported byte-encoding name (for
example "gzip"), the bodySize computation throws Node's unknown-encoding
error and construction returns no message; so construction is total only
when the `Content-Encoding` header is absent or names a supported byte
encoding. -/
theorem c10_unknown_encoding_throws (startLine : String) (rawHeaders : RawHeaders)
    (body e : String) (h1 : resolveEncoding rawHeaders = some e)
    (h2 : normalizeEncoding e = none) :
    HttpMessage.construct startLine rawHeaders (some body)
      = Except.error ("Unknown encoding: " ++ e) := by
  unfold HttpMessage.construct
  simp [computeBodySize, bufferByteLength, h1, h2, Except.map]

/-- Witness for C10: the "gzip" Content-Encoding with a present body. -/
theorem c10_unknown_encoding_witness :
    resolveEncoding [("Content-Encoding", "gzip")] = some "gzip"
    ∧ normalizeEncoding "gzip" = none
    ∧ HttpMessage.construct "POST / HTTP/1.0" [("Content-Encoding", "gzip")]
        (some "Hello")
      = Except.error ("Unknown encoding: " ++ "gzip") :=
  ⟨rfl, rfl,
    c10_unknown_encoding_throws "POST / HTTP/1.0" [("Content-Encoding", "gzip")]
      "Hello" "gzip" rfl rfl⟩
